import Mathlib

set_option maxRecDepth 8192

/-!
Verification of the Ustaad AI tutoring chat application.

This file gives a shallow embedding, in Lean 4, of the parts of the
repository that the specification's claims are about:

* the base64/PCM audio decoder (`base64ToBytes` / `decodePCM` in the
  service module, src/unnamed/part_000 lines 162-194),
* the tutor-response post-processing (`generateTutorResponse`, lines 28-80
  of the same file),
* the conversation orchestrator of `App.tsx` (`handleSendMessage`,
  `handleSubjectSelect`, `handleClearChat`, `handleBackToHome`,
  `getSuggestions`, and the image-result merge),
* the per-message audio playback controller of
  `components/MessageBubble.tsx` (`handlePlayAudio` plus the disabled
  play button), and
* the `Subject` enumeration of `types.ts` together with the
  `SUBJECTS_CONFIG` table of `App.tsx`.

JavaScript numbers that are used as byte values or sample values are
modelled as `Nat`/`Int`; the `int16 / 32768.0` conversion is modelled
over `ℚ` (every value `v / 32768` with `|v| ≤ 32768` is a dyadic
rational that IEEE-754 doubles represent exactly, so the rational model
is bit-faithful).  Fallible operations return `Option`/`Except`.
-/

/-! ## Base64 decoding (`base64ToBytes`, service module lines 162-170)

The service decodes with the platform `atob` and then reads the
character codes of the resulting binary string into a `Uint8Array`.
We model `atob` on the standard base64 alphabet
`A-Z a-z 0-9 + /` with optional trailing `=` padding (the unpadded
tails of length 2 and 3 that `atob` also accepts are included; inputs
containing other characters, mid-string padding, or a dangling single
character decode to `none`, which corresponds to `atob` throwing
`InvalidCharacterError`). -/

/-- Value of a single base64 alphabet character
(`A-Z` ↦ 0-25, `a-z` ↦ 26-51, `0-9` ↦ 52-61, `+` ↦ 62, `/` ↦ 63);
any other character, including the padding character `=`, has no value. -/
def b64CharVal (c : Char) : Option Nat :=
  if 65 ≤ c.toNat ∧ c.toNat ≤ 90 then some (c.toNat - 65)
  else if 97 ≤ c.toNat ∧ c.toNat ≤ 122 then some (c.toNat - 97 + 26)
  else if 48 ≤ c.toNat ∧ c.toNat ≤ 57 then some (c.toNat - 48 + 52)
  else if c.toNat = 43 then some 62
  else if c.toNat = 47 then some 63
  else none

/-- Final two-character block `xy` (or `xy==`): one byte, the unused
low 4 bits of `y` discarded, exactly as `atob` does. -/
def b64Pair (a b : Char) : Option (List Nat) :=
  (b64CharVal a).bind fun va =>
  (b64CharVal b).map fun vb => [va * 4 + vb / 16]

/-- Final three-character block `xyz` (or `xyz=`): two bytes, the
unused low 2 bits of `z` discarded. -/
def b64Triple (a b c : Char) : Option (List Nat) :=
  (b64CharVal a).bind fun va =>
  (b64CharVal b).bind fun vb =>
  (b64CharVal c).map fun vc => [va * 4 + vb / 16, vb % 16 * 16 + vc / 4]

/-- A full four-character block: three bytes, prepended to the decoded
remainder of the stream. -/
def b64Quad (a b c d : Char) (tail : Option (List Nat)) : Option (List Nat) :=
  (b64CharVal a).bind fun va =>
  (b64CharVal b).bind fun vb =>
  (b64CharVal c).bind fun vc =>
  (b64CharVal d).bind fun vd =>
  tail.map fun t => (va * 4 + vb / 16) :: (vb % 16 * 16 + vc / 4) :: ((vc % 4 * 64 + vd) :: t)

/-- Decode a base64 character stream four characters at a time; `=`
padding is only meaningful in the final quartet (elsewhere `=` is not
in the alphabet, so the decode fails, as `atob` would). -/
def b64DecodeGroups : List Char → Option (List Nat)
  | [] => some []
  | [a, b] => b64Pair a b
  | [a, b, c] => b64Triple a b c
  | a :: b :: c :: d :: rest =>
    if c = '=' ∧ d = '=' ∧ rest = [] then b64Pair a b
    else if d = '=' ∧ rest = [] then b64Triple a b c
    else b64Quad a b c d (b64DecodeGroups rest)
  | _ => none

/-- Embedding of `base64ToBytes` (service module lines 162-170): `atob`
followed by reading each character code of the binary string as a byte. -/
def base64ToBytes (base64 : String) : Option (List Nat) :=
  b64DecodeGroups base64.data

/-! ## PCM decoding (`decodePCM`, service module lines 172-194) -/

/-- Reinterpret a pair of bytes as a little-endian signed 16-bit
integer, as a single `Int16Array` element does. -/
def toInt16 (lo hi : Nat) : Int :=
  if lo + 256 * hi < 32768 then ((lo + 256 * hi : Nat) : Int)
  else ((lo + 256 * hi : Nat) : Int) - 65536

/-- The `Int16Array` view of a byte buffer: consecutive little-endian
byte pairs.  (An odd-length buffer never reaches this function; the
`Int16Array` constructor rejects it, see `decodePCM`.) -/
def bytesToInt16LE : List Nat → List Int
  | lo :: hi :: rest => toInt16 lo hi :: bytesToInt16LE rest
  | [] => []
  | [_] => []

/-- Result type of `decodePCM`: the fields of the constructed
`AudioBuffer` (sample values over `ℚ`, one sample list per channel). -/
structure AudioBuffer where
  numChannels : Nat
  frameCount : Nat
  sampleRate : Nat
  channelData : List (List ℚ)
deriving DecidableEq, Repr

/-- Message text of the exception raised by `new Int16Array(buffer)`
when the buffer length is not a multiple of 2. -/
def int16RangeErrorMsg : String :=
  "RangeError: byte length of Int16Array should be a multiple of 2"

/-- Message text of the exception raised by `atob` on invalid input. -/
def invalidCharacterErrorMsg : String := "InvalidCharacterError"

/-- Embedding of `decodePCM` (service module lines 172-194).

The source does `new Int16Array(bytes.buffer)`: per the ECMAScript
specification this constructor throws a `RangeError` when the buffer's
byte length is not a multiple of the element size 2, so an odd-length
byte buffer is an error, not a truncation.  With `numChannels = 1` the
per-channel loop writes `channelData[i] = int16Data[i * 1 + 0] / 32768.0`
and `frameCount = int16Data.length / 1`. -/
def decodePCM (base64Data : String) : Except String AudioBuffer :=
  match base64ToBytes base64Data with
  | none => .error invalidCharacterErrorMsg
  | some bytes =>
    if bytes.length % 2 ≠ 0 then .error int16RangeErrorMsg
    else
      let int16Data := bytesToInt16LE bytes
      let numChannels := 1
      let frameCount := int16Data.length / numChannels
      .ok { numChannels := numChannels
            frameCount := frameCount
            sampleRate := 24000
            channelData := [int16Data.map fun v : Int => (v : ℚ) / 32768] }

/-! ## The data model (`types.ts`)

The `Subject` enum of `types.ts` (lines 1-10) declares EIGHT members.
Note for claim C8: there is no `PAK_STUDIES` member and no member with
value `"Pakistan Studies"`, even though `App.tsx` line 16 references
`Subject.PAK_STUDIES` (a reference that does not typecheck against
`types.ts`). -/

/-- Embedding of the `Subject` enum of `types.ts` (lines 1-10). -/
inductive Subject
  | ENGLISH
  | URDU
  | MATHS
  | PHYSICS
  | CHEMISTRY
  | BIOLOGY
  | COMPUTER
  | GENERAL
deriving DecidableEq, Repr

/-- The string value of each `Subject` member, as written in `types.ts`. -/
def Subject.value : Subject → String
  | .ENGLISH => "English"
  | .URDU => "Urdu"
  | .MATHS => "Mathematics"
  | .PHYSICS => "Physics"
  | .CHEMISTRY => "Chemistry"
  | .BIOLOGY => "Biology"
  | .COMPUTER => "Computer Science"
  | .GENERAL => "General Help"

/-- The members of the `Subject` enum, in declaration order. -/
def allSubjects : List Subject :=
  [.ENGLISH, .URDU, .MATHS, .PHYSICS, .CHEMISTRY, .BIOLOGY, .COMPUTER, .GENERAL]

/-- Embedding of the `id` fields of `SUBJECTS_CONFIG` (`App.tsx` lines
8-17), each resolved against the `Subject` enum of `types.ts`.  The
entry on `App.tsx` line 16 references `Subject.PAK_STUDIES`, a member
that `types.ts` does not declare, so that reference does not resolve
and is recorded as `none`. -/
def SUBJECTS_CONFIG_ids : List (Option Subject) :=
  [some .ENGLISH, some .URDU, some .MATHS, some .PHYSICS,
   some .CHEMISTRY, some .BIOLOGY, some .COMPUTER, none]

/-- Embedding of the `Source` interface of `types.ts` (lines 12-15). -/
structure Source where
  title : String
  uri : String
deriving DecidableEq, Repr

/-- Embedding of the `role` field values of a `Message`. -/
inductive Role
  | user
  | model
deriving DecidableEq, Repr

/-- Embedding of the `Message` interface of `types.ts` (lines 17-26).
Optional fields that the code only ever reads for truthiness
(`imageError`, `isError`) are modelled as `Bool` with `false` for
"absent"; `sources` (an optional array) is modelled as a list with `[]`
for "absent"; the optional string `imageUrl` is an `Option`. -/
structure Message where
  id : String
  role : Role
  text : String
  timestamp : Nat
  sources : List Source := []
  imageUrl : Option String := none
  imageError : Bool := false
  isError : Bool := false
deriving DecidableEq, Repr

/-- Embedding of the `ChatState` interface of `types.ts` (lines 30-34). -/
structure ChatState where
  messages : List Message
  isLoading : Bool
  selectedSubject : Option Subject
deriving DecidableEq, Repr

/-! ## The service layer (`generateTutorResponse`, service module lines 28-80)

The network call itself is an external collaborator; what the source
owns is the post-processing of the collaborator's response: the `||`
fallbacks for the text and for a grounding chunk's title, and the
extraction of web grounding chunks into `Source` records. -/

/-- JavaScript `a || b` on an optional string: `b` when `a` is absent
(`undefined`) or empty (both are falsy), otherwise `a`. -/
def jsOrString (a : Option String) (b : String) : String :=
  match a with
  | some t => if t = "" then b else t
  | none => b

/-- Fallback text substituted by `generateTutorResponse` when the
response text is missing or empty (service module line 57). -/
def fallbackAnswerText : String :=
  "Sorry, I couldn't generate an answer. Please try again."

/-- A web grounding chunk of the collaborator's response
(`chunk.web` with its optional `title` and its `uri`). -/
structure WebRef where
  title : Option String
  uri : String
deriving DecidableEq, Repr

/-- A grounding chunk: `chunk.web` may be absent. -/
structure GroundingChunk where
  web : Option WebRef
deriving DecidableEq, Repr

/-- Result type of `generateTutorResponse`
(`GenerateResponseResult`, service module lines 23-26). -/
structure GenerateResponseResult where
  text : String
  sources : List Source
deriving DecidableEq, Repr

/-- Embedding of the response post-processing of
`generateTutorResponse` (service module lines 57-74): the text falls
back to `fallbackAnswerText` when missing or empty, and each grounding
chunk that carries a `web` part becomes a `Source` whose title falls
back to `"Reference Link"`.  The inputs are the relevant parts of the
collaborator's raw response (`response.text` and
`response.candidates[0].groundingMetadata.groundingChunks`). -/
def generateTutorResponse (apiText : Option String)
    (groundingChunks : Option (List GroundingChunk)) : GenerateResponseResult :=
  { text := jsOrString apiText fallbackAnswerText
    sources :=
      match groundingChunks with
      | none => []
      | some chunks =>
        chunks.filterMap fun chunk =>
          chunk.web.map fun w => { title := jsOrString w.title "Reference Link", uri := w.uri } }

/-! ## The conversation orchestrator (`App.tsx`)

`Date.now()` values are passed in as a `Nat` parameter `now`;
`(Date.now()).toString()` becomes `Nat.repr now`.  The source calls
`Date.now()` several times inside one handler; the calls are so close
together that we model them with a single `now` per event (none of the
claims depends on the sub-millisecond distinction). -/

/-- JavaScript `String.prototype.trim`: strip leading and trailing
whitespace (modelled over the character list with the core whitespace
set; the prompts of interest use plain spaces, tabs and newlines). -/
def jsTrim (s : String) : String :=
  ⟨((s.data.dropWhile Char.isWhitespace).reverse.dropWhile Char.isWhitespace).reverse⟩

/-- The greeting text built by `handleSubjectSelect` (`App.tsx` lines
54-56) and by `handleClearChat` (lines 81-83). -/
def greetingText (subject : Subject) : String :=
  "Assalam-o-Alaikum! I am your " ++ subject.value ++ " tutor. \n" ++
  "Ask me any question, and I will explain it simply for you. \n" ++
  "(Mujhse koi bhi sawal pouchein, main asani se samjhaunga)."

/-- The greeting `model` message, with the given id (`handleSubjectSelect`
uses the literal id `"welcome"`; `handleClearChat` uses `Date.now()`). -/
def greetingMessage (id : String) (subject : Subject) (now : Nat) : Message :=
  { id := id, role := .model, text := greetingText subject, timestamp := now }

/-- The fixed apology text of the error message appended when the text
collaborator fails (`App.tsx` line 193). -/
def apologyText : String :=
  "Sorry, mere internet mein kuch masla aa gaya hai. Please dubara try karein. (Network error, please retry)."

/-- The `user` message appended by `handleSendMessage` (lines 137-142). -/
def userMessage (input : String) (now : Nat) : Message :=
  { id := Nat.repr now, role := .user, text := input, timestamp := now }

/-- The `model` reply message appended on text success (lines 156-163). -/
def botMessage (text : String) (sources : List Source) (now : Nat) : Message :=
  { id := Nat.repr (now + 1), role := .model, text := text, sources := sources, timestamp := now }

/-- The `model` error message appended on text failure (lines 190-196). -/
def errorMessage (now : Nat) : Message :=
  { id := Nat.repr (now + 1), role := .model, text := apologyText, timestamp := now, isError := true }

/-- Embedding of the image-result merge (`App.tsx` lines 174-187): when
the image step resolves, every message whose id equals `botMessageId`
is patched in place with either `imageUrl` (success) or
`imageError = true` (null result); all other messages are unchanged. -/
def applyImageResult (c : ChatState) (botMessageId : String)
    (imageResult : Option String) : ChatState :=
  { c with
    messages := c.messages.map fun msg =>
      if msg.id = botMessageId then
        match imageResult with
        | some url => { msg with imageUrl := some url }
        | none => { msg with imageError := true }
      else msg }

/-- Outcome of one `handleSendMessage` invocation: the final chat state
together with whether each external collaborator was invoked. -/
structure SendOutcome where
  state : ChatState
  textCalled : Bool
  imageCalled : Bool
deriving DecidableEq, Repr

/-- Embedding of `handleSendMessage` (`App.tsx` lines 133-203) run to
completion, as a function of the collaborator results: `textResult` is
the outcome of `generateTutorResponse` (`Except.error` when the
promise rejects) and `imageResult` the outcome of
`generateEducationalImage` (which never rejects; `none` is failure).

The guard on line 135 returns without touching anything when the
trimmed input is empty, a request is in flight, or no subject is
selected.  Otherwise the user message is appended with
`isLoading = true`; on text failure the fixed error message is appended
(`isLoading = false`) and the image collaborator is never consulted; on
text success the reply is appended (`isLoading = false`), the image
collaborator is consulted, and its result is merged by id. -/
def handleSendMessage (c : ChatState) (inputText : String)
    (textResult : Except Unit GenerateResponseResult)
    (imageResult : Option String) (now : Nat) : SendOutcome :=
  if jsTrim inputText = "" ∨ c.isLoading = true ∨ c.selectedSubject = none then
    { state := c, textCalled := false, imageCalled := false }
  else
    let c1 : ChatState :=
      { c with messages := c.messages ++ [userMessage inputText now], isLoading := true }
    match textResult with
    | .error _ =>
      { state := { c1 with messages := c1.messages ++ [errorMessage now], isLoading := false }
        textCalled := true
        imageCalled := false }
    | .ok response =>
      let botMessageId := Nat.repr (now + 1)
      let c2 : ChatState :=
        { c1 with
          messages := c1.messages ++ [botMessage response.text response.sources now]
          isLoading := false }
      { state := applyImageResult c2 botMessageId imageResult
        textCalled := true
        imageCalled := true }

/-- The three fixed follow-up suggestion strings (`App.tsx` lines 216-220). -/
def suggestionStrings : List String :=
  ["Can you explain this further?", "Give me another example.", "Explain this in Urdu."]

/-- Embedding of `getSuggestions` (`App.tsx` lines 210-221): no
suggestions while loading, when there is no last message, when the last
message is not a `model` reply, when it is an error reply, or when its
id is the literal `"welcome"`; otherwise the three fixed strings. -/
def getSuggestions (c : ChatState) : List String :=
  if c.isLoading = true then []
  else
    match c.messages.getLast? with
    | none => []
    | some lastMsg =>
      if lastMsg.role ≠ .model ∨ lastMsg.isError = true then []
      else if lastMsg.id = "welcome" then []
      else suggestionStrings

/-! ## Event-level orchestrator model

`handleSendMessage` suspends twice (at the text await and at the image
await), so other handlers can run between the three `setChatState`
commits of one send.  To reason about every reachable conversation
state we also embed the orchestrator at the granularity of its state
commits: the synchronous part of each handler is one step, and the two
asynchronous continuations of `handleSendMessage` (text resolution,
image-merge) are separate steps.  `pendingImages` records the ids of
reply messages whose image step has not yet resolved (each text success
starts exactly one image request for the id of the reply it created,
`App.tsx` line 172). -/

/-- A chat state together with the ids of the replies whose image step
is still outstanding. -/
structure OrchState where
  chat : ChatState
  pendingImages : List String
deriving DecidableEq, Repr

/-- The initial state (`App.tsx` lines 28-32). -/
def initialOrchState : OrchState :=
  { chat := { messages := [], isLoading := false, selectedSubject := none }
    pendingImages := [] }

/-- Embedding of `handleSubjectSelect` (`App.tsx` lines 49-62): the
conversation is reset to a single greeting message with the literal id
`"welcome"`. -/
def stepSelectSubject (s : OrchState) (subject : Subject) (now : Nat) : OrchState :=
  { s with chat :=
      { messages := [greetingMessage "welcome" subject now]
        isLoading := false
        selectedSubject := some subject } }

/-- Embedding of `handleBackToHome` (`App.tsx` lines 64-70). -/
def stepBackToHome (s : OrchState) : OrchState :=
  { s with chat := { messages := [], isLoading := false, selectedSubject := none } }

/-- Embedding of the confirmed branch of `handleClearChat` (`App.tsx`
lines 72-89): a no-op without a selected subject, otherwise the message
list is reset to a single greeting whose id is `Date.now().toString()`
(not `"welcome"`).  The unconfirmed branch leaves the state unchanged
and is not modelled separately. -/
def stepClearChat (s : OrchState) (now : Nat) : OrchState :=
  match s.chat.selectedSubject with
  | none => s
  | some subject =>
    { s with chat :=
        { s.chat with
          messages := [greetingMessage (Nat.repr now) subject now]
          isLoading := false } }

/-- The synchronous prefix of `handleSendMessage` (`App.tsx` lines
133-149): the guard, then the user message is appended with
`isLoading = true`. -/
def stepSendBegin (s : OrchState) (input : String) (now : Nat) : OrchState :=
  if jsTrim input = "" ∨ s.chat.isLoading = true ∨ s.chat.selectedSubject = none then s
  else
    { s with chat :=
        { s.chat with
          messages := s.chat.messages ++ [userMessage input now]
          isLoading := true } }

/-- The text-success continuation of `handleSendMessage` (`App.tsx`
lines 156-172): the reply is appended, `isLoading` is cleared, and an
image request for the reply's id is started. -/
def stepTextOk (s : OrchState) (text : String) (sources : List Source) (now : Nat) : OrchState :=
  { chat :=
      { s.chat with
        messages := s.chat.messages ++ [botMessage text sources now]
        isLoading := false }
    pendingImages := Nat.repr (now + 1) :: s.pendingImages }

/-- The catch branch of `handleSendMessage` (`App.tsx` lines 189-202). -/
def stepTextErr (s : OrchState) (now : Nat) : OrchState :=
  { s with chat :=
      { s.chat with
        messages := s.chat.messages ++ [errorMessage now]
        isLoading := false } }

/-- The image-merge continuation of `handleSendMessage` (`App.tsx`
lines 172-187): an outstanding image request for `botId` resolves with
`result` and is merged by id; the request is no longer outstanding.  A
`botId` with no outstanding request cannot resolve (no-op). -/
def stepImageResolve (s : OrchState) (botId : String) (result : Option String) : OrchState :=
  if botId ∈ s.pendingImages then
    { chat := applyImageResult s.chat botId result
      pendingImages := s.pendingImages.filter fun x => x ≠ botId }
  else s

/-- The reachable orchestrator states.  The two side conditions of
`textOk` record that the fresh reply id `(Date.now() + 1).toString()`
is not an id for which an image request is already outstanding and is
not the id of a message that has already received its image result:
both hold in the browser because `Date.now()` never decreases and every
previously created id used a strictly earlier clock value. -/
inductive Reachable : OrchState → Prop
  | init : Reachable initialOrchState
  | selectSubject {s} (subject : Subject) (now : Nat) :
      Reachable s → Reachable (stepSelectSubject s subject now)
  | backToHome {s} : Reachable s → Reachable (stepBackToHome s)
  | clearChat {s} (now : Nat) : Reachable s → Reachable (stepClearChat s now)
  | sendBegin {s} (input : String) (now : Nat) :
      Reachable s → Reachable (stepSendBegin s input now)
  | textOk {s} (text : String) (sources : List Source) (now : Nat) :
      Reachable s →
      Nat.repr (now + 1) ∉ s.pendingImages →
      (∀ m ∈ s.chat.messages, m.id = Nat.repr (now + 1) →
        m.imageUrl = none ∧ m.imageError = false) →
      Reachable (stepTextOk s text sources now)
  | textErr {s} (now : Nat) : Reachable s → Reachable (stepTextErr s now)
  | imageResolve {s} (botId : String) (result : Option String) :
      Reachable s → Reachable (stepImageResolve s botId result)

/-! ### The image-field invariant -/

/-- The invariant of claim C6, strengthened with the bookkeeping needed
for its preservation: a message whose image step is still outstanding
carries neither image field, and no message ever carries both. -/
def orchInv (s : OrchState) : Prop :=
  ∀ m ∈ s.chat.messages,
    (m.id ∈ s.pendingImages → m.imageUrl = none ∧ m.imageError = false) ∧
    ¬(m.imageUrl.isSome = true ∧ m.imageError = true)

/-! ## The audio playback controller (`MessageBubble.tsx`)

One controller instance exists per rendered message.  Its phase is the
`audioState` React state (`idle`/`loading`/`playing`); the refs hold
the lazily created output `AudioContext`, the cached decoded buffer,
and the active source nodes.  A play-button press is a no-op while
`loading` because the button is rendered with
`disabled={audioState === 'loading'}` (`MessageBubble.tsx` line 127).

`handlePlayAudio` (lines 30-83) has THREE suspension points, and the
model keeps each one: `await ctx.resume()` (line 46), the speech
synthesis/decode await inside the `try` block (line 56), and nothing
else — a press while `playing` stops and returns synchronously, and a
press that finds a running context and a cached buffer plays
synchronously.  Crucially, the `resume()` await happens BEFORE
`setAudioState('loading')` (line 49): a press flow parked there has
not yet disabled the button, so a second press can run the same code
path.  The environment inputs are whether a freshly constructed
context starts in the `suspended` state (the autoplay-policy case the
`resume()` code exists for) and whether the speech task succeeds.
`contextsCreated` counts evaluations of `new AudioContextClass()`
(line 40); `pendingResume` and `pendingFetch` count press flows parked
at the two awaits; `activeSources` counts started, not-yet-stopped
source nodes. -/

/-- The `audioState` values of `MessageBubble.tsx` (line 13). -/
inductive AudioPhase
  | idle
  | loading
  | playing
deriving DecidableEq, Repr

/-- The per-message playback controller state.  `ctxSuspended` is the
`state === 'suspended'` flag of the output context, meaningful once
`hasContext` holds. -/
structure PlayerState where
  phase : AudioPhase
  hasContext : Bool
  ctxSuspended : Bool
  contextsCreated : Nat
  cachedBuffer : Bool
  activeSources : Nat
  pendingResume : Nat
  pendingFetch : Nat
deriving DecidableEq, Repr

/-- A press of the play button: the part of `handlePlayAudio` that runs
before the first await, guarded by the button's
`disabled={audioState === 'loading'}` attribute (line 127).  A press
while `playing` stops the active source and returns to `idle`
synchronously (lines 31-35).  Otherwise the output context is created
if absent (lines 38-41; this ref assignment is synchronous, so a later
press never constructs another context; `freshSuspended` is the
initial state the browser gives the new context).  Then, if the
context is suspended, the flow parks at `await ctx.resume()` (lines
45-47) BEFORE `setAudioState('loading')` (line 49) runs — the phase
stays `idle` and the button stays enabled.  A non-suspended flow
commits `loading` and enters the `try` block, where a cached buffer
plays synchronously (no further await, lines 52-76) and an uncached
one parks at the speech await (line 56). -/
def pressPlayButton (s : PlayerState) (freshSuspended : Bool) : PlayerState :=
  if s.phase = .loading then s
  else if s.phase = .playing then
    { s with phase := .idle, activeSources := s.activeSources - 1 }
  else
    let s1 :=
      if s.hasContext then s
      else
        { s with
          hasContext := true
          ctxSuspended := freshSuspended
          contextsCreated := s.contextsCreated + 1 }
    if s1.ctxSuspended then { s1 with pendingResume := s1.pendingResume + 1 }
    else if s1.cachedBuffer then
      { s1 with phase := .playing, activeSources := s1.activeSources + 1 }
    else { s1 with phase := .loading, pendingFetch := s1.pendingFetch + 1 }

/-- Continuation of a press flow parked at `await ctx.resume()` (line
46): the context is now running, `setAudioState('loading')` finally
runs (line 49), and the flow enters the `try` block — playing
synchronously from the cached buffer, or parking at the speech await. -/
def resumeResolved (s : PlayerState) : PlayerState :=
  if s.pendingResume = 0 then s
  else
    let s1 := { s with pendingResume := s.pendingResume - 1, ctxSuspended := false }
    if s1.cachedBuffer then
      { s1 with phase := .playing, activeSources := s1.activeSources + 1 }
    else { s1 with phase := .loading, pendingFetch := s1.pendingFetch + 1 }

/-- Continuation of a press flow parked at the speech await (lines
56-76): on success the decoded buffer is cached, a fresh source is
created and started, and the phase becomes `playing`; on failure (null
speech result or decode error) the catch branch returns the phase to
`idle` (lines 78-82). -/
def fetchResolved (s : PlayerState) (ok : Bool) : PlayerState :=
  if s.pendingFetch = 0 then s
  else if ok then
    { s with
      pendingFetch := s.pendingFetch - 1
      cachedBuffer := true
      activeSources := s.activeSources + 1
      phase := .playing }
  else { s with pendingFetch := s.pendingFetch - 1, phase := .idle }

/-- The `onended` callback of a started source (lines 69-72). -/
def sourceEnded (s : PlayerState) : PlayerState :=
  { s with phase := .idle, activeSources := s.activeSources - 1 }

/-! ## Concrete demonstration states -/

/-- A reachable state: subject selected, one question sent, the text
reply committed, its image request (reply id `"6"`) still outstanding. -/
def demoOrchState : OrchState :=
  stepTextOk
    (stepSendBegin (stepSelectSubject initialOrchState Subject.PHYSICS 1)
      "What is gravity?" 3)
    "Gravity pulls objects toward each other." [] 5

/-- `demoOrchState` after a further user turn and a failed model turn:
two more messages follow the reply whose image is still outstanding. -/
def demoOrchState2 : OrchState :=
  stepTextErr (stepSendBegin demoOrchState "Another question" 8) 9

/-- A reachable state whose last message is the greeting created by
`handleClearChat` (id `"5"`, not `"welcome"`). -/
def clearGreetingState : OrchState :=
  stepClearChat (stepSelectSubject initialOrchState Subject.PHYSICS 1) 5

/-- The controller state of a freshly rendered message bubble. -/
def freshPlayerState : PlayerState :=
  { phase := .idle, hasContext := false, ctxSuspended := false, contextsCreated := 0,
    cachedBuffer := false, activeSources := 0, pendingResume := 0, pendingFetch := 0 }

/-- Two presses in quick succession on a fresh bubble whose new output
context starts `suspended` (the autoplay-policy case that the
`ctx.resume()` code exists for): both presses pass the still-enabled
button and park at `await ctx.resume()`. -/
def doublePressSuspended : PlayerState :=
  pressPlayButton (pressPlayButton freshPlayerState true) true

/-- `doublePressSuspended` after the context resume resolves for both
parked flows: each commits `loading` and starts its own speech task. -/
def doublePressResumed : PlayerState :=
  resumeResolved (resumeResolved doublePressSuspended)

/-- `doublePressResumed` after the first speech task succeeds. -/
def doublePressOnePlaying : PlayerState :=
  fetchResolved doublePressResumed true

/-- `doublePressOnePlaying` after the second speech task succeeds too. -/
def doublePressTwoPlaying : PlayerState :=
  fetchResolved doublePressOnePlaying true

/-! ### Decoder lemmas -/

/-- C1 (counterexample): the claim says that a base64 input decoding to
an odd number of bytes is decoded successfully with the trailing byte
silently dropped.  In the source, `decodePCM` does
`new Int16Array(bytes.buffer)`, and the `Int16Array` constructor throws
a `RangeError` when the buffer's byte length is not a multiple of 2.
The concrete input `"AA=="` decodes to the single byte `[0]` and the
decoder raises an error instead of returning a zero-frame buffer. -/
theorem decodePCM_odd_counterexample :
    base64ToBytes "AA==" = some [0] ∧
      decodePCM "AA==" = Except.error int16RangeErrorMsg := ⟨rfl, rfl⟩

/-- C1 (amended): for every base64 input that decodes to an odd number
of bytes, the PCM decoder raises a `RangeError` (the `Int16Array`
reinterpretation of the byte buffer requires an even byte length);
no truncation of the trailing byte takes place. -/
theorem decodePCM_odd_length_errors (s : String) (bytes : List Nat)
    (h : base64ToBytes s = some bytes) (hodd : bytes.length % 2 = 1) :
    decodePCM s = Except.error int16RangeErrorMsg := by
  simp [decodePCM, h, hodd]

/-- Witness for `decodePCM_odd_length_errors` at the concrete input
`"AA=="`, which decodes to the single byte `[0]`. -/
theorem decodePCM_odd_length_errors_witness :
    decodePCM "AA==" = Except.error int16RangeErrorMsg :=
  decodePCM_odd_length_errors "AA==" [0] rfl rfl

theorem reachable_orchInv {s : OrchState} (h : Reachable s) : orchInv s := by
  induction h with
  | init => intro m hm; simp [initialOrchState] at hm
  | selectSubject subject now _ _ =>
    intro m hm
    simp only [stepSelectSubject, List.mem_singleton] at hm
    subst hm
    simp [greetingMessage]
  | backToHome _ _ =>
    intro m hm
    simp [stepBackToHome] at hm
  | clearChat now _ ih =>
    unfold stepClearChat
    split
    · exact ih
    · intro m hm
      simp only [List.mem_singleton] at hm
      subst hm
      simp [greetingMessage]
  | sendBegin input now _ ih =>
    unfold stepSendBegin
    split
    · exact ih
    · intro m hm
      simp only [List.mem_append, List.mem_singleton] at hm
      rcases hm with hm | hm
      · exact ih m hm
      · subst hm
        simp [userMessage]
  | textOk text sources now _ hfresh hunres ih =>
    intro m hm
    simp only [stepTextOk, List.mem_append, List.mem_singleton] at hm
    rcases hm with hm | hm
    · refine ⟨fun hpend => ?_, (ih m hm).2⟩
      rcases List.mem_cons.mp hpend with heq | hpend2
      · exact hunres m hm heq
      · exact (ih m hm).1 hpend2
    · subst hm
      simp [botMessage]
  | textErr now _ ih =>
    intro m hm
    simp only [stepTextErr, List.mem_append, List.mem_singleton] at hm
    rcases hm with hm | hm
    · exact ih m hm
    · subst hm
      simp [errorMessage]
  | imageResolve botId result _ ih =>
    unfold stepImageResolve
    split
    · next hmem =>
      intro m hm
      simp only [applyImageResult, List.mem_map] at hm
      obtain ⟨m0, hm0, rfl⟩ := hm
      by_cases hid : m0.id = botId
      · have hunres0 := (ih m0 hm0).1 (hid ▸ hmem)
        cases result with
        | some url =>
          simp [hid, List.mem_filter, hunres0.2]
        | none =>
          simp [hid, List.mem_filter, hunres0.1]
      · simp only [if_neg hid]
        refine ⟨fun hpend => (ih m0 hm0).1 (List.mem_of_mem_filter hpend), (ih m0 hm0).2⟩
    · exact ih

theorem applyImageResult_length (c : ChatState) (botId : String) (r : Option String) :
    (applyImageResult c botId r).messages.length = c.messages.length := by
  simp [applyImageResult]

theorem applyImageResult_get (c : ChatState) (botId : String) (r : Option String)
    (i : Nat) (h1 : i < c.messages.length)
    (h2 : i < (applyImageResult c botId r).messages.length) :
    (applyImageResult c botId r).messages.get ⟨i, h2⟩ =
      if (c.messages.get ⟨i, h1⟩).id = botId then
        match r with
        | some url => { c.messages.get ⟨i, h1⟩ with imageUrl := some url }
        | none => { c.messages.get ⟨i, h1⟩ with imageError := true }
      else c.messages.get ⟨i, h1⟩ := by
  simp only [applyImageResult, List.get_eq_getElem, List.getElem_map]
  split
  · cases r <;> rfl
  · rfl

/-! ### Decimal ids are never the literal `"welcome"`

`handleClearChat` gives its greeting the id `Date.now().toString()`,
while `getSuggestions` only recognises the literal id `"welcome"`.  To
separate the two we prove that the decimal representation of a natural
number never equals `"welcome"` (its characters are all digit
characters). -/

theorem digitChar_ne_w (m : Nat) : Nat.digitChar m ≠ 'w' := by
  by_cases h : m < 16
  · interval_cases m <;> decide
  · unfold Nat.digitChar
    rw [if_neg (show ¬m = 0 by omega), if_neg (show ¬m = 1 by omega),
        if_neg (show ¬m = 2 by omega), if_neg (show ¬m = 3 by omega),
        if_neg (show ¬m = 4 by omega), if_neg (show ¬m = 5 by omega),
        if_neg (show ¬m = 6 by omega), if_neg (show ¬m = 7 by omega),
        if_neg (show ¬m = 8 by omega), if_neg (show ¬m = 9 by omega),
        if_neg (show ¬m = 10 by omega), if_neg (show ¬m = 11 by omega),
        if_neg (show ¬m = 12 by omega), if_neg (show ¬m = 13 by omega),
        if_neg (show ¬m = 14 by omega), if_neg (show ¬m = 15 by omega)]
    decide

theorem toDigitsCore_mem (b : Nat) :
    ∀ (fuel n : Nat) (ds : List Char) (c : Char),
      c ∈ Nat.toDigitsCore b fuel n ds → c ∈ ds ∨ ∃ m, c = Nat.digitChar m := by
  intro fuel
  induction fuel with
  | zero =>
    intro n ds c h
    unfold Nat.toDigitsCore at h
    exact Or.inl h
  | succ fuel ih =>
    intro n ds c h
    simp only [Nat.toDigitsCore] at h
    split at h
    · rcases List.mem_cons.mp h with h | h
      · exact Or.inr ⟨n % b, h⟩
      · exact Or.inl h
    · rcases ih _ _ _ h with h2 | h2
      · rcases List.mem_cons.mp h2 with h3 | h3
        · exact Or.inr ⟨n % b, h3⟩
        · exact Or.inl h3
      · exact Or.inr h2

theorem natRepr_ne_welcome (n : Nat) : Nat.repr n ≠ "welcome" := by
  intro h
  have hdata : Nat.toDigits 10 n = "welcome".data := by
    have h2 := congrArg String.data h
    simpa [Nat.repr, List.asString] using h2
  have hw : 'w' ∈ Nat.toDigits 10 n := by
    rw [hdata]; decide
  unfold Nat.toDigits at hw
  rcases toDigitsCore_mem 10 (n + 1) n [] 'w' hw with h2 | h2
  · simp at h2
  · obtain ⟨m, hm⟩ := h2
    exact digitChar_ne_w m hm.symm

theorem demoOrchState_reachable : Reachable demoOrchState :=
  Reachable.textOk _ _ _
    (Reachable.sendBegin _ _ (Reachable.selectSubject _ _ Reachable.init))
    (by decide) (by decide)

theorem demoOrchState2_reachable : Reachable demoOrchState2 :=
  Reachable.textErr _ (Reachable.sendBegin _ _ demoOrchState_reachable)

/-! ## Claim C5: the send guard -/

/-- C5: with an empty or whitespace-only prompt, or while a request is
in flight, or with no subject selected, `handleSendMessage` is a no-op:
the chat state (message list, loading flag, selected subject) is
returned unchanged and neither collaborator is invoked. -/
theorem sendGuard_noop (c : ChatState) (input : String)
    (textResult : Except Unit GenerateResponseResult)
    (imageResult : Option String) (now : Nat)
    (h : jsTrim input = "" ∨ c.isLoading = true ∨ c.selectedSubject = none) :
    handleSendMessage c input textResult imageResult now =
      { state := c, textCalled := false, imageCalled := false } := by
  unfold handleSendMessage
  rw [if_pos h]

/-- Witness for `sendGuard_noop`: a whitespace-only prompt in a ready
state is a no-op. -/
theorem sendGuard_noop_witness :
    handleSendMessage { messages := [], isLoading := false, selectedSubject := some Subject.MATHS }
        "  " (Except.error ()) none 3 =
      { state := { messages := [], isLoading := false, selectedSubject := some Subject.MATHS }
        textCalled := false, imageCalled := false } :=
  sendGuard_noop _ "  " (Except.error ()) none 3 (Or.inl (by decide))

/-! ## Claim C4: text-collaborator failure -/

/-- C4: when the text collaborator fails, `handleSendMessage` appends
exactly the user message and one `model` message carrying the fixed
apology text with `isError = true`, ends with `isLoading = false`, and
never invokes the image collaborator. -/
theorem sendTextFailure_spec (c : ChatState) (input : String)
    (imageResult : Option String) (now : Nat)
    (hinput : jsTrim input ≠ "") (hload : c.isLoading = false)
    (hsubj : c.selectedSubject ≠ none) :
    handleSendMessage c input (Except.error ()) imageResult now =
      { state :=
          { messages := c.messages ++ [userMessage input now, errorMessage now]
            isLoading := false
            selectedSubject := c.selectedSubject }
        textCalled := true
        imageCalled := false } ∧
    (userMessage input now).role = Role.user ∧
    (userMessage input now).isError = false ∧
    (errorMessage now).role = Role.model ∧
    (errorMessage now).isError = true ∧
    (errorMessage now).text = apologyText := by
  have hg : ¬(jsTrim input = "" ∨ c.isLoading = true ∨ c.selectedSubject = none) := by
    push_neg
    exact ⟨hinput, by simp [hload], hsubj⟩
  refine ⟨?_, rfl, rfl, rfl, rfl, rfl⟩
  simp only [handleSendMessage, if_neg hg]
  simp

/-- Witness for `sendTextFailure_spec` at a concrete ready state. -/
theorem sendTextFailure_spec_witness :
    handleSendMessage { messages := [], isLoading := false, selectedSubject := some Subject.PHYSICS }
        "What is gravity?" (Except.error ()) none 3 =
      { state :=
          { messages := [] ++ [userMessage "What is gravity?" 3, errorMessage 3]
            isLoading := false
            selectedSubject := some Subject.PHYSICS }
        textCalled := true
        imageCalled := false } ∧
    (userMessage "What is gravity?" 3).role = Role.user ∧
    (userMessage "What is gravity?" 3).isError = false ∧
    (errorMessage 3).role = Role.model ∧
    (errorMessage 3).isError = true ∧
    (errorMessage 3).text = apologyText :=
  sendTextFailure_spec _ "What is gravity?" none 3 (by decide) rfl (by decide)

/-! ## Claim C3: a null image result marks the reply by id -/

/-- C3: in any reachable state in which an image request for a reply id
is still outstanding, when the image collaborator resolves with `null`
for that id, the message carrying that id ends with `imageError = true`
and no `imageUrl` — regardless of how many messages were appended after
the reply, since the merge locates the message by id, not by position. -/
theorem imageNullResolution_marks_error (s : OrchState) (h : Reachable s)
    (botId : String) (hpend : botId ∈ s.pendingImages)
    (i : Nat) (h1 : i < s.chat.messages.length)
    (hid : (s.chat.messages.get ⟨i, h1⟩).id = botId) :
    ∃ h2 : i < (stepImageResolve s botId none).chat.messages.length,
      ((stepImageResolve s botId none).chat.messages.get ⟨i, h2⟩).imageError = true ∧
      ((stepImageResolve s botId none).chat.messages.get ⟨i, h2⟩).imageUrl = none := by
  have hmem : s.chat.messages.get ⟨i, h1⟩ ∈ s.chat.messages := List.get_mem _ _ _
  have hunres := (reachable_orchInv h _ hmem).1 (hid ▸ hpend)
  have hstep : stepImageResolve s botId none =
      { chat := applyImageResult s.chat botId none
        pendingImages := s.pendingImages.filter fun x => x ≠ botId } := by
    unfold stepImageResolve
    rw [if_pos hpend]
  rw [hstep]
  have h2 : i < (applyImageResult s.chat botId none).messages.length := by
    rw [applyImageResult_length]
    exact h1
  refine ⟨h2, ?_⟩
  rw [applyImageResult_get s.chat botId none i h1 h2, if_pos hid]
  exact ⟨rfl, hunres.1⟩

/-- Witness for `imageNullResolution_marks_error`: in `demoOrchState2`
two further messages (a user turn and a failed model turn) follow the
reply `"6"`; the null image resolution still marks exactly that reply. -/
theorem imageNullResolution_marks_error_witness :
    ∃ h2 : 2 < (stepImageResolve demoOrchState2 "6" none).chat.messages.length,
      ((stepImageResolve demoOrchState2 "6" none).chat.messages.get ⟨2, h2⟩).imageError = true ∧
      ((stepImageResolve demoOrchState2 "6" none).chat.messages.get ⟨2, h2⟩).imageUrl = none :=
  imageNullResolution_marks_error demoOrchState2 demoOrchState2_reachable "6"
    (by decide) 2 (by decide) (by decide)

/-! ## Claim C6: the image-field invariant and the in-place merge -/

/-- C6: in every reachable conversation state no message carries both
`imageUrl` and `imageError`, and a message whose image step has not yet
resolved carries neither; the image merge preserves the length and
order of the message list and leaves every message with a different id
unchanged (it patches elements in place, never reorders). -/
theorem conversationImageInvariant (s : OrchState) (h : Reachable s) :
    (∀ m ∈ s.chat.messages, ¬(m.imageUrl.isSome = true ∧ m.imageError = true)) ∧
    (∀ m ∈ s.chat.messages, m.id ∈ s.pendingImages →
      m.imageUrl = none ∧ m.imageError = false) ∧
    (∀ (botId : String) (result : Option String),
      (applyImageResult s.chat botId result).messages.length = s.chat.messages.length ∧
      ∀ (i : Nat) (h1 : i < s.chat.messages.length)
        (h2 : i < (applyImageResult s.chat botId result).messages.length),
        (s.chat.messages.get ⟨i, h1⟩).id ≠ botId →
          (applyImageResult s.chat botId result).messages.get ⟨i, h2⟩ =
            s.chat.messages.get ⟨i, h1⟩) := by
  have hinv := reachable_orchInv h
  refine ⟨fun m hm => (hinv m hm).2, fun m hm => (hinv m hm).1,
    fun botId result => ⟨applyImageResult_length s.chat botId result, ?_⟩⟩
  intro i h1 h2 hne
  rw [applyImageResult_get s.chat botId result i h1 h2, if_neg hne]

/-- Witness for `conversationImageInvariant` at the reachable state
`demoOrchState2`: merging a result for the outstanding reply id `"6"`
preserves the message-list length. -/
theorem conversationImageInvariant_witness :
    (applyImageResult demoOrchState2.chat "6" none).messages.length =
      demoOrchState2.chat.messages.length :=
  ((conversationImageInvariant demoOrchState2 demoOrchState2_reachable).2.2 "6" none).1

/-! ## Claim C7: the playback controller -/

theorem pressPlayButton_hasContext (t : PlayerState) (c : Bool)
    (ht : t.phase = AudioPhase.idle) : (pressPlayButton t c).hasContext = true := by
  unfold pressPlayButton
  rw [if_neg (by simp [ht]), if_neg (by simp [ht])]
  by_cases hc : t.hasContext <;> by_cases hs : t.ctxSuspended <;>
    by_cases hb : t.cachedBuffer <;> by_cases hf : c <;> simp [hc, hs, hb, hf]

theorem pressPlayButton_contextsCreated_le (t : PlayerState) (c : Bool) :
    (pressPlayButton t c).contextsCreated ≤ t.contextsCreated + 1 := by
  unfold pressPlayButton
  by_cases h1 : t.phase = AudioPhase.loading
  · simp [h1]
  · by_cases h2 : t.phase = AudioPhase.playing
    · simp [h1, h2]
    · rw [if_neg h1, if_neg h2]
      by_cases hc : t.hasContext <;> by_cases hs : t.ctxSuspended <;>
        by_cases hb : t.cachedBuffer <;> by_cases hf : c <;> simp [hc, hs, hb, hf]

theorem pressPlayButton_contextsCreated_of_hasContext (t : PlayerState) (c : Bool)
    (hc : t.hasContext = true) :
    (pressPlayButton t c).contextsCreated = t.contextsCreated := by
  unfold pressPlayButton
  by_cases h1 : t.phase = AudioPhase.loading
  · simp [h1]
  · by_cases h2 : t.phase = AudioPhase.playing
    · simp [h1, h2]
    · rw [if_neg h1, if_neg h2]
      by_cases hs : t.ctxSuspended <;> by_cases hb : t.cachedBuffer <;> simp [hc, hs, hb]

/-- C7 (counterexample): the claim says two presses in succession
without awaiting the first reach `playing` exactly once.  In the
source, `await ctx.resume()` (`MessageBubble.tsx` lines 45-47) runs
BEFORE `setAudioState('loading')` (line 49), and the button is only
disabled while the committed state is `loading`.  So when the freshly
created context starts `suspended`, the first press parks at the
resume await with the phase still `idle` and the button still enabled;
a second press passes the same guard and parks too (both presses
passed: `pendingResume = 2`).  After the resume resolves, both
continuations commit `loading` and start their own speech task
(`pendingFetch = 2`), and as the two tasks succeed the controller
transitions to `playing` twice, ending with TWO simultaneously active
sources.  Only the no-second-context part survives: the context ref is
assigned synchronously, so `contextsCreated` stays 1. -/
theorem playbackDoublePress_counterexample :
    doublePressSuspended.contextsCreated = 1 ∧
    doublePressSuspended.phase = AudioPhase.idle ∧
    doublePressSuspended.pendingResume = 2 ∧
    doublePressResumed.phase = AudioPhase.loading ∧
    doublePressResumed.pendingFetch = 2 ∧
    doublePressOnePlaying.phase = AudioPhase.playing ∧
    doublePressOnePlaying.activeSources = 1 ∧
    doublePressTwoPlaying.phase = AudioPhase.playing ∧
    doublePressTwoPlaying.activeSources = 2 := by
  decide

/-- C7 (amended): two presses in succession never construct a second
output context for the same message (the context reference is assigned
synchronously before any await).  When the press flow does not suspend
at `ctx.resume()` — the existing context is running, or the fresh
context starts running — and no task of this controller is already in
flight, the first press commits `loading` synchronously and starts
exactly one speech task, the second press is rejected by the disabled
button as a strict no-op, and the single pending resolution reaches
`playing` exactly once.  A press while `loading` refuses to start
anything, and a press while `playing` stops the active source and
returns to `idle` synchronously.  (When the fresh context starts
`suspended`, both presses can pass the still-enabled button before
`loading` commits and `playing` can be reached twice — see the
counterexample.) -/
theorem playbackToggle_spec (s : PlayerState) (b1 b2 : Bool)
    (hidle : s.phase = AudioPhase.idle)
    (hq1 : s.pendingResume = 0) (hq2 : s.pendingFetch = 0)
    (hcache : s.cachedBuffer = false)
    (hns : (if s.hasContext then s.ctxSuspended else b1) = false) :
    (∀ (t : PlayerState) (c1 c2 : Bool), t.phase = AudioPhase.idle →
      (pressPlayButton (pressPlayButton t c1) c2).contextsCreated ≤ t.contextsCreated + 1) ∧
    (pressPlayButton s b1).phase = AudioPhase.loading ∧
    (pressPlayButton s b1).hasContext = true ∧
    (pressPlayButton s b1).contextsCreated ≤ s.contextsCreated + 1 ∧
    (pressPlayButton s b1).pendingFetch = 1 ∧
    (pressPlayButton s b1).pendingResume = 0 ∧
    pressPlayButton (pressPlayButton s b1) b2 = pressPlayButton s b1 ∧
    (fetchResolved (pressPlayButton s b1) true).phase = AudioPhase.playing ∧
    (fetchResolved (pressPlayButton s b1) true).activeSources = s.activeSources + 1 ∧
    (fetchResolved (pressPlayButton s b1) true).pendingFetch = 0 ∧
    (fetchResolved (pressPlayButton s b1) true).pendingResume = 0 ∧
    (∀ (t : PlayerState) (c : Bool), t.phase = AudioPhase.loading →
      pressPlayButton t c = t) ∧
    (∀ (t : PlayerState) (c : Bool), t.phase = AudioPhase.playing →
      pressPlayButton t c =
        { t with phase := AudioPhase.idle, activeSources := t.activeSources - 1 }) := by
  have hloading : ∀ (t : PlayerState) (c : Bool), t.phase = AudioPhase.loading →
      pressPlayButton t c = t := by
    intro t c ht
    unfold pressPlayButton
    rw [if_pos ht]
  have hplaying : ∀ (t : PlayerState) (c : Bool), t.phase = AudioPhase.playing →
      pressPlayButton t c =
        { t with phase := AudioPhase.idle, activeSources := t.activeSources - 1 } := by
    intro t c ht
    unfold pressPlayButton
    rw [if_neg (by simp [ht]), if_pos ht]
  have hctx2 : ∀ (t : PlayerState) (c1 c2 : Bool), t.phase = AudioPhase.idle →
      (pressPlayButton (pressPlayButton t c1) c2).contextsCreated ≤ t.contextsCreated + 1 := by
    intro t c1 c2 ht
    rw [pressPlayButton_contextsCreated_of_hasContext _ c2 (pressPlayButton_hasContext t c1 ht)]
    exact pressPlayButton_contextsCreated_le t c1
  have hp : pressPlayButton s b1 =
      { s with
        hasContext := true
        ctxSuspended := false
        contextsCreated := if s.hasContext then s.contextsCreated else s.contextsCreated + 1
        phase := AudioPhase.loading
        pendingFetch := s.pendingFetch + 1 } := by
    unfold pressPlayButton
    rw [if_neg (by simp [hidle]), if_neg (by simp [hidle])]
    by_cases hc : s.hasContext
    · have hsus : s.ctxSuspended = false := by simpa [hc] using hns
      simp [hc, hsus, hcache]
    · have hb1 : b1 = false := by simpa [hc] using hns
      simp [hc, hb1, hcache]
  refine ⟨hctx2, ?_, ?_, ?_, ?_, ?_, ?_, ?_, ?_, ?_, ?_, hloading, hplaying⟩
  · rw [hp]
  · rw [hp]
  · rw [hp]
    show (if s.hasContext then s.contextsCreated else s.contextsCreated + 1) ≤
      s.contextsCreated + 1
    split <;> omega
  · rw [hp, hq2]
  · rw [hp, hq1]
  · rw [hp]
    exact hloading _ b2 rfl
  · rw [hp]
    simp [fetchResolved]
  · rw [hp]
    simp [fetchResolved]
  · rw [hp]
    simp [fetchResolved, hq2]
  · rw [hp]
    simp [fetchResolved, hq1]

/-- Witness for `playbackToggle_spec` at the fresh controller state of
a newly rendered message whose new output context starts running. -/
theorem playbackToggle_spec_witness :
    (∀ (t : PlayerState) (c1 c2 : Bool), t.phase = AudioPhase.idle →
      (pressPlayButton (pressPlayButton t c1) c2).contextsCreated ≤ t.contextsCreated + 1) ∧
    (pressPlayButton freshPlayerState false).phase = AudioPhase.loading ∧
    (pressPlayButton freshPlayerState false).hasContext = true ∧
    (pressPlayButton freshPlayerState false).contextsCreated ≤
      freshPlayerState.contextsCreated + 1 ∧
    (pressPlayButton freshPlayerState false).pendingFetch = 1 ∧
    (pressPlayButton freshPlayerState false).pendingResume = 0 ∧
    pressPlayButton (pressPlayButton freshPlayerState false) true =
      pressPlayButton freshPlayerState false ∧
    (fetchResolved (pressPlayButton freshPlayerState false) true).phase =
      AudioPhase.playing ∧
    (fetchResolved (pressPlayButton freshPlayerState false) true).activeSources =
      freshPlayerState.activeSources + 1 ∧
    (fetchResolved (pressPlayButton freshPlayerState false) true).pendingFetch = 0 ∧
    (fetchResolved (pressPlayButton freshPlayerState false) true).pendingResume = 0 ∧
    (∀ (t : PlayerState) (c : Bool), t.phase = AudioPhase.loading →
      pressPlayButton t c = t) ∧
    (∀ (t : PlayerState) (c : Bool), t.phase = AudioPhase.playing →
      pressPlayButton t c =
        { t with phase := AudioPhase.idle, activeSources := t.activeSources - 1 }) :=
  playbackToggle_spec freshPlayerState false true rfl rfl rfl rfl (by decide)

/-! ## Claim C8: the Subject enumeration -/

/-- C8: the `Subject` enum of `types.ts` is a closed enumeration of
exactly EIGHT values — `"Pakistan Studies"` is not among them — while
`App.tsx` still references a ninth member `Subject.PAK_STUDIES` in its
selection table (recorded as the unresolvable `none` entry) and never
offers `GENERAL` (`"General Help"`) for selection. -/
theorem subjectEnum_spec :
    (∀ s : Subject, s ∈ allSubjects) ∧
    allSubjects.map Subject.value =
      ["English", "Urdu", "Mathematics", "Physics", "Chemistry", "Biology",
       "Computer Science", "General Help"] ∧
    allSubjects.length = 8 ∧
    "Pakistan Studies" ∉ allSubjects.map Subject.value ∧
    none ∈ SUBJECTS_CONFIG_ids ∧
    some Subject.GENERAL ∉ SUBJECTS_CONFIG_ids := by
  refine ⟨fun s => ?_, by decide, by decide, by decide, by decide, by decide⟩
  cases s <;> decide

/-! ## Claim C9: suggestion derivation -/

/-- C9 (counterexample): the claim says no suggestions are available
when the last message is the greeting produced by `clear()`.  In the
source, `getSuggestions` suppresses suggestions only for the literal id
`"welcome"` (the `handleSubjectSelect` greeting), while `handleClearChat`
creates its greeting with the id `Date.now().toString()`.  In the
reachable state `clearGreetingState` the last (indeed only) message is
the `clear()` greeting (id `"5"`, a non-error model message) and the
three suggestions ARE available. -/
theorem suggestionsAfterClear_counterexample :
    Reachable clearGreetingState ∧
    clearGreetingState.chat.messages.getLast? =
      some (greetingMessage (Nat.repr 5) Subject.PHYSICS 5) ∧
    clearGreetingState.chat.isLoading = false ∧
    getSuggestions clearGreetingState.chat = suggestionStrings ∧
    suggestionStrings ≠ [] :=
  ⟨Reachable.clearChat 5 (Reachable.selectSubject Subject.PHYSICS 1 Reachable.init),
   by decide, by decide, by decide, by decide⟩

/-- C9 (amended): `getSuggestions` yields either the three fixed
strings or nothing; it yields the three strings exactly when the
conversation is not loading and the last message is a non-error `model`
message whose id is not the literal `"welcome"`.  Consequently the
greeting created by subject selection (id `"welcome"`) suppresses
suggestions, but the greeting created by `clear()` (decimal timestamp
id) does NOT: after `clear()` the three suggestions are available. -/
theorem getSuggestions_spec (c : ChatState) :
    (getSuggestions c = suggestionStrings ∨ getSuggestions c = []) ∧
    (getSuggestions c = suggestionStrings ↔
      (c.isLoading = false ∧ ∃ lastMsg : Message,
        c.messages.getLast? = some lastMsg ∧ lastMsg.role = Role.model ∧
        lastMsg.isError = false ∧ lastMsg.id ≠ "welcome")) ∧
    (∀ (s : OrchState) (subject : Subject) (now : Nat),
      getSuggestions (stepSelectSubject s subject now).chat = []) ∧
    (∀ (s : OrchState) (now : Nat), s.chat.selectedSubject ≠ none →
      getSuggestions (stepClearChat s now).chat = suggestionStrings) := by
  refine ⟨?_, ?_, ?_, ?_⟩
  · unfold getSuggestions
    split
    · exact Or.inr rfl
    · split
      · exact Or.inr rfl
      · split
        · exact Or.inr rfl
        · split
          · exact Or.inr rfl
          · exact Or.inl rfl
  · constructor
    · intro hs
      unfold getSuggestions at hs
      split at hs
      · exact absurd hs (by decide)
      · next hload =>
        split at hs
        · exact absurd hs (by decide)
        · next lastMsg hlast =>
          split at hs
          · exact absurd hs (by decide)
          · next hcond =>
            split at hs
            · exact absurd hs (by decide)
            · next hid =>
              push_neg at hcond
              exact ⟨by simpa using hload, lastMsg, hlast, hcond.1,
                by simpa using hcond.2, hid⟩
    · rintro ⟨hload, lastMsg, hlast, hrole, herr, hid⟩
      unfold getSuggestions
      rw [if_neg (by simp [hload]), hlast]
      show (if lastMsg.role ≠ Role.model ∨ lastMsg.isError = true then []
        else if lastMsg.id = "welcome" then [] else suggestionStrings) = suggestionStrings
      rw [if_neg (by simp [hrole, herr]), if_neg hid]
  · intro s subject now
    simp [getSuggestions, stepSelectSubject, greetingMessage]
  · intro s now hsubj
    unfold stepClearChat
    cases hsel : s.chat.selectedSubject with
    | none => exact absurd hsel hsubj
    | some subject =>
      simp [getSuggestions, greetingMessage, natRepr_ne_welcome now]

/-- Witness for `getSuggestions_spec`: after `clear()` in
`clearGreetingState` the three suggestions are available. -/
theorem getSuggestions_spec_witness :
    getSuggestions clearGreetingState.chat = suggestionStrings :=
  (getSuggestions_spec clearGreetingState.chat).2.2.2
    (stepSelectSubject initialOrchState Subject.PHYSICS 1) 5 (by decide)

/-! ## Claim C10: the tutor-response text is never empty -/

/-- C10: whatever the collaborator returns (missing text, empty text,
any grounding chunks), the text of the tutor response produced by
`generateTutorResponse` is never the empty string — the `||` fallback
substitutes the fixed apology — and therefore the non-error `model`
message appended by a successful send always carries non-empty text. -/
theorem tutorResponseText_nonempty (apiText : Option String)
    (groundingChunks : Option (List GroundingChunk)) :
    (generateTutorResponse apiText groundingChunks).text ≠ "" ∧
    (∀ (c : ChatState) (input : String) (imageResult : Option String) (now : Nat),
      jsTrim input ≠ "" → c.isLoading = false → c.selectedSubject ≠ none →
      ∃ botFinal : Message,
        (handleSendMessage c input
            (Except.ok (generateTutorResponse apiText groundingChunks))
            imageResult now).state.messages.getLast? = some botFinal ∧
        botFinal.role = Role.model ∧
        botFinal.isError = false ∧
        botFinal.text = (generateTutorResponse apiText groundingChunks).text ∧
        botFinal.text ≠ "") := by
  have htext : (generateTutorResponse apiText groundingChunks).text ≠ "" := by
    show jsOrString apiText fallbackAnswerText ≠ ""
    cases apiText with
    | none => decide
    | some t =>
      show (if t = "" then fallbackAnswerText else t) ≠ ""
      split
      · decide
      · next hne => exact hne
  refine ⟨htext, ?_⟩
  intro c input imageResult now hinput hload hsubj
  have hg : ¬(jsTrim input = "" ∨ c.isLoading = true ∨ c.selectedSubject = none) := by
    push_neg
    exact ⟨hinput, by simp [hload], hsubj⟩
  simp only [handleSendMessage, if_neg hg]
  set r := generateTutorResponse apiText groundingChunks with hr
  set bot := botMessage r.text r.sources now with hbot
  have hid : bot.id = Nat.repr (now + 1) := rfl
  have hmsgs : (applyImageResult
      { messages := (c.messages ++ [userMessage input now]) ++ [bot]
        isLoading := false
        selectedSubject := c.selectedSubject } (Nat.repr (now + 1)) imageResult).messages =
      ((c.messages ++ [userMessage input now]).map fun msg =>
        if msg.id = Nat.repr (now + 1) then
          match imageResult with
          | some url => { msg with imageUrl := some url }
          | none => { msg with imageError := true }
        else msg) ++
      [match imageResult with
       | some url => { bot with imageUrl := some url }
       | none => { bot with imageError := true }] := by
    simp only [applyImageResult, List.map_append, List.map_cons, List.map_nil, if_pos hid]
  refine ⟨(match imageResult with
      | some url => { bot with imageUrl := some url }
      | none => { bot with imageError := true }), ?_, ?_, ?_, ?_, ?_⟩
  · rw [hmsgs, List.getLast?_concat]
    cases imageResult <;> rfl
  · cases imageResult <;> rfl
  · cases imageResult <;> rfl
  · cases imageResult <;> rfl
  · cases imageResult <;> exact htext

/-- Witness for `tutorResponseText_nonempty`: an empty collaborator
text falls back to the fixed apology, and a send carrying it appends a
non-error reply with non-empty text. -/
theorem tutorResponseText_nonempty_witness :
    (generateTutorResponse (some "") none).text ≠ "" ∧
    ∃ botFinal : Message,
      (handleSendMessage { messages := [], isLoading := false, selectedSubject := some Subject.BIOLOGY }
          "Explain cells" (Except.ok (generateTutorResponse (some "") none)) none 7).state.messages.getLast? =
        some botFinal ∧
      botFinal.role = Role.model ∧
      botFinal.isError = false ∧
      botFinal.text = (generateTutorResponse (some "") none).text ∧
      botFinal.text ≠ "" :=
  ⟨(tutorResponseText_nonempty (some "") none).1,
   (tutorResponseText_nonempty (some "") none).2
     { messages := [], isLoading := false, selectedSubject := some Subject.BIOLOGY }
     "Explain cells" none 7 (by decide) rfl (by decide)⟩
